import Mathlib

/-!
Shallow embedding of the kxo userspace monitor core:
the bit-packed protocol codec (kxo_pkg.h), the move-history queue
(record_queue.c over the Linux-style intrusive list of list.h), and the
session event loop of xo-user.c.

Modelling conventions:
* Machine bytes are `Nat` with explicit bit masks mirroring the C macros.
* Heap allocation is an oracle `List Bool`: each `malloc` consumes one
  entry (`true` = success, exhausted oracle = success).  Each result
  carries `live`, the net number of heap blocks left allocated by the
  call, so that leak claims are expressible.
* The intrusive circular doubly-linked list is modelled as a Lean `List`
  in front-to-back traversal order (`head->next` first); `list_add` at
  the head is therefore `cons`.
* Writes through unchecked C indices (`table[pkg.move]`,
  `move_record[move_count++]`) are modelled as `Option`-valued
  operations that are `none` exactly when the C write would be out of
  bounds (undefined behaviour); the C code itself performs no check.
* `N_GRIDS` (from game.h, not part of the sources here) is kept as an
  explicit parameter `n` of the loop model.
-/

namespace Kxo

/-! ### Protocol codec, from kxo_pkg.h

`struct package { char val; int move; }` and the bit-mask macros. -/

/-- `PKG_PUT_AI(pkg, c) = (pkg.val & 0x80) | c`: keep the end bit,
replace the low 7 bits by `c`. -/
def PKG_PUT_AI (val c : Nat) : Nat := (val &&& 0x80) ||| c

/-- `PKG_SET_END(pkg) = (pkg.val & 0x7F) | 0x80`. -/
def PKG_SET_END (val : Nat) : Nat := (val &&& 0x7F) ||| 0x80

/-- `PKG_CLR_END(pkg) = (pkg.val & 0x7F) | 0x00`. -/
def PKG_CLR_END (val : Nat) : Nat := (val &&& 0x7F) ||| 0x00

/-- `PKG_GET_AI(val) = val & 0x7F`. -/
def PKG_GET_AI (val : Nat) : Nat := val &&& 0x7F

/-- `PKG_GET_END(val) = ((val & 0x80) != 0)`. -/
def PKG_GET_END (val : Nat) : Bool := (val &&& 0x80) != 0

/-- The wire record `struct package { char val; int move; }`. -/
structure package where
  val : Nat
  move : Int
deriving DecidableEq, Repr

/-! ### Allocation oracle -/

/-- One `malloc` call against the oracle: consume the next verdict,
success when the oracle is exhausted. -/
def allocStep : List Bool → Bool × List Bool
  | [] => (true, [])
  | b :: rest => (b, rest)

/-! ### Move-history queue, from record_queue.c

`element_t { int *value; int len; char ai; struct list_head list; }`.
The queue is `Option (List element_t)`: `none` is a NULL head, the list
is in front-to-back (most-recent-first) traversal order. -/

structure element_t where
  value : List Int
  len : Nat
  ai : Char
deriving DecidableEq, Repr

/-- Result of `q_insert_head`: the boolean return value, the queue as
mutated, the remaining allocation oracle, and the net number of heap
blocks the call left allocated. -/
structure InsertResult where
  ok : Bool
  queue : Option (List element_t)
  alloc : List Bool
  live : Nat
deriving DecidableEq, Repr

/-- `q_new`: one `malloc` for the header; `none` on failure. -/
def q_new (a : List Bool) : Option (List element_t) × List Bool :=
  let r := allocStep a
  (if r.1 then some [] else none, r.2)

/-- `q_insert_head(head, move, len, ai)`: NULL head is rejected; then
`malloc` the node, `malloc` the copied move array (freeing the node if
that fails), copy `len` moves, `list_add` at the head. -/
def q_insert_head (head : Option (List element_t)) (move : List Int)
    (len : Nat) (ai : Char) (a : List Bool) : InsertResult :=
  match head with
  | none => ⟨false, none, a, 0⟩
  | some q =>
    let r1 := allocStep a
    if !r1.1 then ⟨false, some q, r1.2, 0⟩
    else
      let r2 := allocStep r1.2
      if !r2.1 then
        -- node->value failed: free(node), so no block stays live
        ⟨false, some q, r2.2, 0⟩
      else ⟨true, some (⟨move.take len, len, ai⟩ :: q), r2.2, 2⟩

/-! ### Session state and event loop, from xo-user.c -/

/-- The mutable program state of xo-user.c: `char table[N_GRIDS]`, the
`move_record`/`move_count` pair (modelled as the list of the first
`move_count` recorded moves), the queue `head`, the `read_attr` /
`end_attr` flags, plus the allocation oracle. -/
structure UserState where
  table : List Char
  moveRecord : List Int
  head : Option (List element_t)
  read_attr : Bool
  end_attr : Bool
  alloc : List Bool
deriving DecidableEq, Repr

/-- `record_to_queue(winner)`: nothing to do when `move_count == 0`;
otherwise insert and, only on success, reset `move_count` to 0. -/
def record_to_queue (s : UserState) (winner : Char) : UserState :=
  if s.moveRecord.length = 0 then s
  else
    let r := q_insert_head s.head s.moveRecord s.moveRecord.length winner s.alloc
    if r.ok then { s with head := r.queue, alloc := r.alloc, moveRecord := [] }
    else { s with head := r.queue, alloc := r.alloc }

/-- The unchecked C write `table[idx] = c`: defined exactly when `idx`
is in bounds. -/
def tableWrite (table : List Char) (idx : Int) (c : Char) : Option (List Char) :=
  if 0 ≤ idx ∧ idx.toNat < table.length then some (table.set idx.toNat c)
  else none

/-- `record_move(move)`: the unchecked write
`move_record[move_count++] = move` into an `int[N_GRIDS]` buffer:
defined exactly when `move_count < N_GRIDS`. -/
def record_move (n : Nat) (moveRecord : List Int) (move : Int) : Option (List Int) :=
  if moveRecord.length < n then some (moveRecord ++ [move]) else none

/-- One device-ready iteration of the main loop: read a `package`,
skip heartbeats, apply the board write and move-log append, display
when `read_attr`, and on the end flag run `record_to_queue` and
`memset(table, ' ', N_GRIDS)`.  Returns the new state and whether a
display refresh happened; `none` models an out-of-bounds write. -/
def deviceStep (n : Nat) (s : UserState) (pkg : package) :
    Option (UserState × Bool) :=
  if pkg.move = -1 ∧ PKG_GET_END pkg.val = false then some (s, false)
  else
    let step1 : Option UserState :=
      if pkg.move ≠ -1 then
        match tableWrite s.table pkg.move (Char.ofNat (PKG_GET_AI pkg.val)),
              record_move n s.moveRecord pkg.move with
        | some t, some mr => some { s with table := t, moveRecord := mr }
        | _, _ => none
      else some s
    match step1 with
    | none => none
    | some s1 =>
      let disp := s1.read_attr
      let s2 :=
        if PKG_GET_END pkg.val then
          let s3 := record_to_queue s1 (Char.ofNat (PKG_GET_AI pkg.val))
          { s3 with table := List.replicate n ' ' }
        else s1
      some (s2, disp)

/-- `listen_keyboard_handler`: Ctrl-P (16) toggles the display flag and
the first attribute byte; Ctrl-Q (17) forces attribute byte 4 to '1',
clears `read_attr` and sets `end_attr`.  Returns the new state and the
6-byte record written back to the attribute file, if any. -/
def listen_keyboard_handler (s : UserState) (input : Char) (buf : List Char) :
    UserState × Option (List Char) :=
  if input = Char.ofNat 16 then
    let b0 := buf.getD 0 (Char.ofNat 0)
    ({ s with read_attr := !s.read_attr },
      some (buf.set 0 (if b0 = '0' then '1' else '0')))
  else if input = Char.ofNat 17 then
    ({ s with read_attr := false, end_attr := true }, some (buf.set 4 '1'))
  else (s, none)

/-- One readiness event of the select loop: a keyboard byte together
with the current 6-byte attribute-file content, or a device record. -/
inductive Event where
  | kbd : Char → List Char → Event
  | dev : package → Event
deriving DecidableEq, Repr

/-- Dispatch one readiness event. -/
def stepEvent (n : Nat) (s : UserState) : Event → Option (UserState × Option (List Char))
  | .kbd input buf => some (listen_keyboard_handler s input buf)
  | .dev pkg => (deviceStep n s pkg).map (fun r => (r.1, none))

/-- The `while (!end_attr)` loop over a finite schedule of readiness
events; it stops consuming events as soon as `end_attr` holds. -/
def runLoop (n : Nat) : UserState → List Event → Option UserState
  | s, [] => some s
  | s, e :: es =>
    if s.end_attr then some s
    else
      match stepEvent n s e with
      | none => none
      | some r => runLoop n r.1 es

/-- Iterate `deviceStep` over a list of device records. -/
def runDevice (n : Nat) : UserState → List package → Option UserState
  | s, [] => some s
  | s, p :: ps =>
    match deviceStep n s p with
    | none => none
    | some r => runDevice n r.1 ps

/-- The state right after `main`'s initialisation with a successfully
created queue: `table` is `static` (zero bytes), no moves recorded,
`read_attr = true`, `end_attr = false`. -/
def initState (n : Nat) (a : List Bool) : UserState :=
  { table := List.replicate n (Char.ofNat 0)
    moveRecord := []
    head := some []
    read_attr := true
    end_attr := false
    alloc := a }

end Kxo

namespace Kxo

/-! ### Helper lemmas about the bit masks -/

theorem mask_low_of_lor (s m : Nat) (hm : m < 128) :
    ((s &&& 128) ||| m) &&& 127 = m := by
  apply Nat.eq_of_testBit_eq
  intro i
  have h127 : (127 : Nat) = 2 ^ 7 - 1 := by norm_num
  have h128 : (128 : Nat) = 2 ^ 7 := by norm_num
  rw [h127, h128]
  simp only [Nat.testBit_and, Nat.testBit_or, Nat.testBit_two_pow,
    Nat.testBit_two_pow_sub_one]
  by_cases hi : i < 7
  · have h7 : ¬(7 = i) := by omega
    simp [hi, h7]
  · have hmi : m < 2 ^ i := by
      calc m < 128 := hm
        _ = 2 ^ 7 := by norm_num
        _ ≤ 2 ^ i := Nat.pow_le_pow_right (by norm_num) (by omega)
    simp [hi, Nat.testBit_lt_two_pow hmi]

theorem mask_high_of_lor (s m : Nat) (hm : m < 128) :
    ((s &&& 128) ||| m) &&& 128 = s &&& 128 := by
  apply Nat.eq_of_testBit_eq
  intro i
  have h128 : (128 : Nat) = 2 ^ 7 := by norm_num
  rw [h128]
  simp only [Nat.testBit_and, Nat.testBit_or, Nat.testBit_two_pow]
  by_cases hi : 7 = i
  · subst hi
    have hmi : m < 2 ^ 7 := by norm_num [hm]
    simp [Nat.testBit_lt_two_pow hmi]
  · simp [hi]

/-! ### Claim theorems -/

/-- Claim C5: for every 8-bit status byte `s` and mark `m` in `[0,127]`,
`PKG_GET_AI (PKG_PUT_AI s m) = m` and
`PKG_GET_END (PKG_PUT_AI s m) = PKG_GET_END s`. -/
theorem pkg_codec_roundtrip (s m : Nat) (hs : s < 256) (hm : m ≤ 127) :
    PKG_GET_AI (PKG_PUT_AI s m) = m ∧
      PKG_GET_END (PKG_PUT_AI s m) = PKG_GET_END s := by
  unfold PKG_GET_AI PKG_PUT_AI PKG_GET_END
  refine ⟨mask_low_of_lor s m (by omega), ?_⟩
  rw [mask_high_of_lor s m (by omega)]

/-- Concrete instance of the codec round-trip at `s = 200`, `m = 88`. -/
theorem pkg_codec_roundtrip_witness :
    (200 : Nat) < 256 ∧ (88 : Nat) ≤ 127 ∧
      (PKG_GET_AI (PKG_PUT_AI 200 88) = 88 ∧
        PKG_GET_END (PKG_PUT_AI 200 88) = PKG_GET_END 200) :=
  ⟨by norm_num, by norm_num,
    pkg_codec_roundtrip 200 88 (by norm_num) (by norm_num)⟩

/-- Claim C10: `q_insert_head` on the NULL queue sentinel returns
`false`, consumes no allocation, leaves no block live, and inserts
nothing. -/
theorem q_insert_head_null_head (move : List Int) (len : Nat) (ai : Char)
    (a : List Bool) :
    q_insert_head none move len ai a = ⟨false, none, a, 0⟩ := rfl

/-- Claim C3 counterexample: with every allocation succeeding,
`q_insert_head` on an empty queue with zero moves returns `true`,
leaves two blocks allocated, and inserts a zero-move record — it is
not the claimed "return false without allocating" no-op. -/
theorem q_insert_head_zero_moves_inserts :
    q_insert_head (some []) [] 0 'X' [] = ⟨true, some [⟨[], 0, 'X'⟩], [], 2⟩ ∧
      (⟨true, some [⟨[], 0, 'X'⟩], [], 2⟩ : InsertResult).ok ≠ false :=
  ⟨rfl, by decide⟩

/-- Claim C3 (amended): `q_insert_head` itself has no zero-move guard —
with successful allocation it inserts a zero-move record and returns
`true`; the zero-move no-op lives in the caller `record_to_queue`,
which returns with the state untouched when the move log is empty. -/
theorem zero_move_guard_in_caller (q : List element_t) (w : Char)
    (s : UserState) (hs : s.moveRecord = []) :
    q_insert_head (some q) [] 0 w [] = ⟨true, some (⟨[], 0, w⟩ :: q), [], 2⟩ ∧
      record_to_queue s w = s := by
  refine ⟨rfl, ?_⟩
  simp [record_to_queue, hs]

/-- Concrete instance of the amended zero-move behaviour. -/
theorem zero_move_guard_in_caller_witness :
    q_insert_head (some []) [] 0 'O' [] = ⟨true, some [⟨[], 0, 'O'⟩], [], 2⟩ ∧
      record_to_queue (initState 16 []) 'O' = initState 16 [] :=
  zero_move_guard_in_caller [] 'O' (initState 16 []) rfl

/-- Claim C4: for a non-empty move sequence, if the node allocation
fails, or the node allocation succeeds and the move-array allocation
fails, `q_insert_head` returns `false`, the queue is unchanged, and no
heap block stays live (the node is freed in the partial case). -/
theorem q_insert_head_alloc_fail_no_mutation (q : List element_t)
    (move : List Int) (len : Nat) (ai : Char) (rest : List Bool)
    (h : 0 < len) :
    q_insert_head (some q) move len ai (false :: rest) = ⟨false, some q, rest, 0⟩ ∧
      q_insert_head (some q) move len ai (true :: false :: rest)
        = ⟨false, some q, rest, 0⟩ :=
  ⟨rfl, rfl⟩

/-- Concrete instance of the allocation-failure behaviour. -/
theorem q_insert_head_alloc_fail_no_mutation_witness :
    (0 : Nat) < 1 ∧
      (q_insert_head (some []) [0] 1 'X' [false] = ⟨false, some [], [], 0⟩ ∧
        q_insert_head (some []) [0] 1 'X' [true, false] = ⟨false, some [], [], 0⟩) :=
  ⟨by decide, q_insert_head_alloc_fail_no_mutation [] [0] 1 'X' [] (by decide)⟩

/-- Claim C7: pushing `moves1/'X'` then `moves2/'O'` (all allocations
succeeding) leaves the queue, in front-to-back traversal order, with
the `moves2/'O'` record strictly before the `moves1/'X'` record. -/
theorem q_insert_head_traversal_order (q : List element_t)
    (m1 m2 : List Int) (rest : List Bool)
    (h1 : 0 < m1.length) (h2 : 0 < m2.length) :
    q_insert_head (some q) m1 m1.length 'X' (true :: true :: true :: true :: rest)
        = ⟨true, some (⟨m1, m1.length, 'X'⟩ :: q), true :: true :: rest, 2⟩ ∧
      q_insert_head (some (⟨m1, m1.length, 'X'⟩ :: q)) m2 m2.length 'O'
          (true :: true :: rest)
        = ⟨true, some (⟨m2, m2.length, 'O'⟩ :: ⟨m1, m1.length, 'X'⟩ :: q), rest, 2⟩ := by
  constructor <;> simp [q_insert_head, allocStep, List.take_length]

/-- Concrete instance of the traversal-order behaviour. -/
theorem q_insert_head_traversal_order_witness :
    (0 : Nat) < ([0] : List Int).length ∧ (0 : Nat) < ([1] : List Int).length ∧
      (q_insert_head (some []) [0] [0].length 'X' [true, true, true, true]
          = ⟨true, some [⟨[0], 1, 'X'⟩], [true, true], 2⟩ ∧
        q_insert_head (some [⟨[0], 1, 'X'⟩]) [1] [1].length 'O' [true, true]
          = ⟨true, some [⟨[1], 1, 'O'⟩, ⟨[0], 1, 'X'⟩], [], 2⟩) :=
  ⟨by decide, by decide,
    q_insert_head_traversal_order [] [0] [1] [] (by decide) (by decide)⟩

/-- Claim C2, code behaviour at the failing input: with move log `[0]`
and the node allocation failing, `record_to_queue` returns with the
move log still `[0]` — the in-progress log is NOT discarded (only a
successful insert resets `move_count` in the source), contradicting
the claim that the failed game's moves cannot carry over. -/
theorem record_to_queue_failed_insert_keeps_log :
    record_to_queue
        { table := List.replicate 16 ' ', moveRecord := [0], head := some [],
          read_attr := true, end_attr := false, alloc := [false] } 'X'
      = { table := List.replicate 16 ' ', moveRecord := [0], head := some [],
          read_attr := true, end_attr := false, alloc := [] } ∧
      ([0] : List Int) ≠ [] :=
  ⟨rfl, by decide⟩

end Kxo

namespace Kxo

/-- Claim C6: a device record with the sentinel move and a clear end
flag changes nothing: the state (board, move log, queue, flags) is
returned unchanged, no display refresh is reported, and the loop goes
on to the next event. -/
theorem deviceStep_heartbeat_noop (n : Nat) (s : UserState) (pkg : package)
    (es : List Event) (h1 : pkg.move = -1) (h2 : PKG_GET_END pkg.val = false) :
    deviceStep n s pkg = some (s, false) ∧
      (s.end_attr = false → runLoop n s (Event.dev pkg :: es) = runLoop n s es) := by
  have hstep : deviceStep n s pkg = some (s, false) := by
    unfold deviceStep
    rw [if_pos ⟨h1, h2⟩]
  refine ⟨hstep, fun he => ?_⟩
  simp [runLoop, stepEvent, hstep, he]

/-- Concrete instance of the heartbeat no-op. -/
theorem deviceStep_heartbeat_noop_witness :
    deviceStep 16 (initState 16 []) ⟨0, -1⟩ = some (initState 16 [], false) ∧
      ((initState 16 []).end_attr = false →
        runLoop 16 (initState 16 []) [Event.dev ⟨0, -1⟩]
          = runLoop 16 (initState 16 []) []) :=
  deviceStep_heartbeat_noop 16 (initState 16 []) ⟨0, -1⟩ [] rfl (by decide)

/-- Claim C8: on the terminate key (Ctrl-Q, byte 17) the handler clears
`read_attr`, sets `end_attr`, and writes back the 6-byte attribute
record with byte 4 forced to '1'; once `end_attr` holds, the event
loop consumes no further event. -/
theorem ctrl_q_sets_flags_and_exits (n : Nat) (s : UserState)
    (buf : List Char) (evs : List Event) (h : buf.length = 6) :
    (listen_keyboard_handler s (Char.ofNat 17) buf).1.read_attr = false ∧
      (listen_keyboard_handler s (Char.ofNat 17) buf).1.end_attr = true ∧
      (listen_keyboard_handler s (Char.ofNat 17) buf).2 = some (buf.set 4 '1') ∧
      (buf.set 4 '1').length = 6 ∧
      (buf.set 4 '1').get? 4 = some '1' ∧
      runLoop n (listen_keyboard_handler s (Char.ofNat 17) buf).1 evs
        = some (listen_keyboard_handler s (Char.ofNat 17) buf).1 := by
  have hk : listen_keyboard_handler s (Char.ofNat 17) buf
      = ({ s with read_attr := false, end_attr := true }, some (buf.set 4 '1')) := by
    unfold listen_keyboard_handler
    rw [if_neg (by decide), if_pos rfl]
  rw [hk]
  refine ⟨rfl, rfl, rfl, by simp [h], ?_, ?_⟩
  · exact List.get?_set_eq_of_lt '1' (by omega)
  · cases evs with
    | nil => rfl
    | cons e es => simp [runLoop]

/-- Concrete instance of the Ctrl-Q behaviour. -/
theorem ctrl_q_sets_flags_and_exits_witness :
    (listen_keyboard_handler (initState 16 []) (Char.ofNat 17)
        ['0', '0', '0', '0', '0', '\n']).1.read_attr = false ∧
      (listen_keyboard_handler (initState 16 []) (Char.ofNat 17)
        ['0', '0', '0', '0', '0', '\n']).1.end_attr = true ∧
      (listen_keyboard_handler (initState 16 []) (Char.ofNat 17)
          ['0', '0', '0', '0', '0', '\n']).2
        = some (['0', '0', '0', '0', '0', '\n'].set 4 '1') ∧
      (['0', '0', '0', '0', '0', '\n'].set 4 '1').length = 6 ∧
      (['0', '0', '0', '0', '0', '\n'].set 4 '1').get? 4 = some '1' ∧
      runLoop 16 (listen_keyboard_handler (initState 16 []) (Char.ofNat 17)
          ['0', '0', '0', '0', '0', '\n']).1 []
        = some (listen_keyboard_handler (initState 16 []) (Char.ofNat 17)
          ['0', '0', '0', '0', '0', '\n']).1 :=
  ctrl_q_sets_flags_and_exits 16 (initState 16 [])
    ['0', '0', '0', '0', '0', '\n'] [] rfl

/-- Claim C9: the device-ready step performs `table[move]` and
`move_record[move_count++]` unchecked; with a full-size board it is
defined (no out-of-bounds write) exactly when the move is the sentinel
or both `0 ≤ move < N_GRIDS` and fewer than `N_GRIDS` moves are
already recorded. -/
theorem deviceStep_unchecked_bounds (n : Nat) (s : UserState) (pkg : package)
    (h : s.table.length = n) :
    (deviceStep n s pkg).isSome = true ↔
      (pkg.move = -1 ∨
        (0 ≤ pkg.move ∧ pkg.move.toNat < n ∧ s.moveRecord.length < n)) := by
  unfold deviceStep
  by_cases hmv : pkg.move = -1
  · by_cases he : PKG_GET_END pkg.val = false
    · rw [if_pos ⟨hmv, he⟩]
      simp [hmv]
    · rw [if_neg (fun hc => he hc.2)]
      simp [hmv]
  · rw [if_neg (fun hc => hmv hc.1)]
    simp only [tableWrite, record_move, h]
    by_cases hb : 0 ≤ pkg.move ∧ pkg.move.toNat < n
    · by_cases hr : s.moveRecord.length < n
      · simp [hmv, hb, hr]
      · simp [hmv, hb, hr]
    · simp [hmv, hb]
      tauto

/-- Concrete instance of the bounds characterisation: move index 20 on
a 16-cell board is out of bounds, so the step is undefined. -/
theorem deviceStep_unchecked_bounds_witness :
    ((deviceStep 16 (initState 16 []) ⟨88, 20⟩).isSome = true ↔
      ((20 : Int) = -1 ∨
        ((0 : Int) ≤ 20 ∧ (20 : Int).toNat < 16 ∧
          (initState 16 []).moveRecord.length < 16))) :=
  deviceStep_unchecked_bounds 16 (initState 16 []) ⟨88, 20⟩ (by decide)

end Kxo

namespace Kxo

/-- Claim C1 counterexample: running scenario A
(`{mark='X', move=0}`, `{mark='O', move=4}`, `{end|'X', move=-1}`)
from the freshly initialised state queues exactly one record
`{moves=[0,4], winner='X'}`, but the board cells 0 and 4 hold `' '`
afterwards — the end record resets the snapshot, so the board does not
end up with `'X'` at 0 and `'O'` at 4 as the claim states. -/
theorem scenarioA_board_cleared_counterexample :
    (runDevice 16 (initState 16 []) [⟨88, 0⟩, ⟨79, 4⟩, ⟨216, -1⟩]).map
        (fun t => (t.table.get? 0, t.table.get? 4, t.head))
      = some (some ' ', some ' ', some [⟨[0, 4], 2, 'X'⟩]) ∧
      (' ' : Char) ≠ 'X' := by
  exact ⟨by decide, by decide⟩

/-- Claim C1 (amended): on an end-flagged record with the sentinel
move, the step pushes `⟨move log, winner⟩` onto the front of the
queue, clears the log, and resets the board to all-spaces; in scenario
A the board holds `'X'` at 0 and `'O'` at 4 after the first two
records, and after the end record exactly one `⟨[0,4], 'X'⟩` record is
queued while the board snapshot is reset to empty. -/
theorem game_end_records_and_resets (n : Nat) (s : UserState) (pkg : package)
    (q : List element_t) (hq : s.head = some q)
    (he : PKG_GET_END pkg.val = true) (hm : pkg.move = -1)
    (hmr : s.moveRecord ≠ []) (ha : s.alloc = []) :
    deviceStep n s pkg
        = some ({ s with
            head := some (⟨s.moveRecord, s.moveRecord.length,
              Char.ofNat (PKG_GET_AI pkg.val)⟩ :: q),
            moveRecord := [], alloc := [],
            table := List.replicate n ' ' }, s.read_attr) ∧
      (runDevice 16 (initState 16 []) [⟨88, 0⟩, ⟨79, 4⟩]).map
          (fun t => (t.table.get? 0, t.table.get? 4, t.moveRecord))
        = some (some 'X', some 'O', [0, 4]) ∧
      (runDevice 16 (initState 16 []) [⟨88, 0⟩, ⟨79, 4⟩, ⟨216, -1⟩]).map
          (fun t => (t.head, t.table.get? 0, t.moveRecord))
        = some (some [⟨[0, 4], 2, 'X'⟩], some ' ', []) := by
  refine ⟨?_, by decide, by decide⟩
  have hlen : ¬(s.moveRecord.length = 0) := by
    simpa [List.length_eq_zero] using hmr
  unfold deviceStep
  rw [if_neg (by simp [he])]
  simp [record_to_queue, q_insert_head, allocStep, hq, ha, hm, he, hlen,
    List.take_length]

/-- Concrete instance of the amended end-of-game behaviour. -/
theorem game_end_records_and_resets_witness :
    deviceStep 16 { initState 16 [] with moveRecord := [0, 4] } ⟨216, -1⟩
        = some ({ table := List.replicate 16 ' ', moveRecord := [],
                  head := some [⟨[0, 4], 2, 'X'⟩], read_attr := true,
                  end_attr := false, alloc := [] }, true) ∧
      (runDevice 16 (initState 16 []) [⟨88, 0⟩, ⟨79, 4⟩]).map
          (fun t => (t.table.get? 0, t.table.get? 4, t.moveRecord))
        = some (some 'X', some 'O', [0, 4]) ∧
      (runDevice 16 (initState 16 []) [⟨88, 0⟩, ⟨79, 4⟩, ⟨216, -1⟩]).map
          (fun t => (t.head, t.table.get? 0, t.moveRecord))
        = some (some [⟨[0, 4], 2, 'X'⟩], some ' ', []) :=
  game_end_records_and_resets 16 { initState 16 [] with moveRecord := [0, 4] }
    ⟨216, -1⟩ [] rfl (by decide) rfl (by decide) rfl

end Kxo
